import Mathlib

/-!
Verification development for the browservice session protocol engine
(src/session.cpp).  The definitions below are a shallow embedding of the
session state machine: the `Session` structure mirrors the fields of the
C++ `Session` class that the verified properties concern, and each
operation is translated from the corresponding C++ function.  Machine
integers (`uint64_t` counters, `int` dimensions, millisecond clocks) are
modelled as `Nat`; the counters are only ever incremented or reset, and
all time arithmetic is on a monotone clock, so no wrap-around arithmetic
is involved in the verified properties.
-/

namespace Browservice

/-- Session lifecycle states (enum `State` in the C++ source:
`Pending`, `Open`, `Closing`, `Closed`). -/
inductive SessionState where
  | Pending
  | Open
  | Closing
  | Closed
deriving DecidableEq, Repr

/-- One queued iframe producer (the closures pushed by `addIframe_`).
The three call sites in the source are popup creation (`OnBeforePopup`),
the clipboard dialog (`onClipboardButtonPressed`) and the download
notification (`onDownloadCompleted`); the payload `Nat` abstracts the
captured popup session id or completed-download file. -/
inductive IframeAction where
  | popup (sessionId : Nat)
  | clipboard
  | download (file : Nat)
deriving DecidableEq, Repr

/-- One entry of the download ledger `downloads_`: the key
`downloadIdx`, the served file, and the absolute time at which the
entry's `Timeout::create(10000)` timer fires and erases it. -/
structure DownloadEntry where
  idx : Nat
  file : Nat
  expiry : Nat
deriving DecidableEq, Repr

/-- Modelled from the spec: the signal moduli `WidthSignalModulus` and
`HeightSignalModulus` are declared in `session.hpp`, which is not part
of the available sources; the values 4 and 8 are the ones stipulated by
the specification (testable property 3: `Wmod=4, Hmod=8`). -/
def WidthSignalModulus : Nat := 4

/-- Modelled from the spec: see `WidthSignalModulus`. -/
def HeightSignalModulus : Nat := 8

/-- Modelled from the spec: the width-signal value meaning that no
iframe is queued.  The spec (testable property 4) fixes the no-iframe
signal at 0 and the iframe-pending signal at 1. -/
def WidthSignalNoNewIframe : Nat := 0

/-- Modelled from the spec: the width-signal value meaning that an
iframe is queued.  See `WidthSignalNoNewIframe`. -/
def WidthSignalNewIframe : Nat := 1

/-- Modelled from the spec: the cursor code used to initialise
`heightSignal_` in the constructor (`NormalCursor` from the missing
header); the cursor codes lie in `[0, cursorTypeCount)`. -/
def NormalCursor : Nat := 0

/-- Duration of the long inactivity timeout, `Timeout::create(30000)`. -/
def LongTimeoutMs : Nat := 30000

/-- Duration of the shortened inactivity timeout, `Timeout::create(4000)`. -/
def ShortTimeoutMs : Nat := 4000

/-- Time-to-live of a download ledger entry, `Timeout::create(10000)`. -/
def DownloadTTLMs : Nat := 10000

/-- The per-client session state: the fields of the C++ `Session` class
involved in the verified properties.  The armed inactivity timer is
modelled as `none` (both timers cleared) or `some (shortened, deadline)`
for whichever of the two mutually exclusive timers is armed, where
`deadline` is the absolute time at which it fires. -/
structure Session where
  state_ : SessionState
  closeOnOpen_ : Bool
  hasBrowser_ : Bool
  preMainVisited_ : Bool
  prePrevVisited_ : Bool
  prevNextClicked_ : Bool
  curMainIdx_ : Nat
  curImgIdx_ : Nat
  curEventIdx_ : Nat
  curDownloadIdx_ : Nat
  widthSignal_ : Nat
  heightSignal_ : Nat
  rootViewportW_ : Nat
  rootViewportH_ : Nat
  paddedW_ : Nat
  paddedH_ : Nat
  iframeQueue_ : List IframeAction
  downloads_ : List DownloadEntry
  timer_ : Option (Bool × Nat)
  lastSecurityStatusUpdateTime_ : Nat
  lastNavigateOperationTime_ : Nat
deriving DecidableEq, Repr

/-- Translation of `Session::updateInactivityTimeout_(bool shortened)`:
clear both timers, then, if the session is Pending or Open, arm the
short or the long timer (whose callback will invoke `close`). -/
def updateInactivityTimeout (now : Nat) (shortened : Bool) (s : Session) : Session :=
  let s := { s with timer_ := none }
  let dl := now + (if shortened then ShortTimeoutMs else LongTimeoutMs)
  if s.state_ = .Pending ∨ s.state_ = .Open then
    { s with timer_ := some (shortened, dl) }
  else
    s

/-- Translation of `Session::close()`: from Open, move to Closing and
ask the browser to close; from Pending, only record `closeOnOpen_`;
otherwise do nothing. -/
def close (s : Session) : Session :=
  if s.state_ = .Open then
    { s with state_ := .Closing }
  else if s.state_ = .Pending then
    { s with closeOnOpen_ := true }
  else
    s

/-- States assigned to `state_` during one `close()` call (used to
record state-machine steps at the granularity of single assignments). -/
def closeTrace (s : Session) : List SessionState :=
  if s.state_ = .Open then [.Closing] else []

/-- Translation of `Session::navigate_(int direction)`: commands issued
within 200 ms of the previously issued one are dropped (double-report
debounce); otherwise the debounce clock is updated and, if a browser is
attached, the back/reload/forward command is issued to it (returned as
`some direction`). -/
def navigate (now : Nat) (direction : Int) (s : Session) : Session × Option Int :=
  if now - s.lastNavigateOperationTime_ ≤ 200 then
    (s, none)
  else
    let s := { s with lastNavigateOperationTime_ := now }
    (s, if s.hasBrowser_ then some direction else none)

/-- Translation of `Session::setWidthSignal_`. -/
def setWidthSignal (v : Nat) (s : Session) : Session :=
  if v ≠ s.widthSignal_ then { s with widthSignal_ := v } else s

/-- Translation of `Session::setHeightSignal_`. -/
def setHeightSignal (v : Nat) (s : Session) : Session :=
  if v ≠ s.heightSignal_ then { s with heightSignal_ := v } else s

/-- Translation of `Session::addIframe_`: push the producer and flip the
width signal to the iframe-pending value. -/
def addIframe (a : IframeAction) (s : Session) : Session :=
  setWidthSignal WidthSignalNewIframe { s with iframeQueue_ := s.iframeQueue_ ++ [a] }

/-- Loop body of `Session::handleEvents_`.  `idx` is the running
sequence number of the current token (`startEventIdx + offset`), `cur`
is the session's `curEventIdx_`.  A token is processed exactly when its
sequence number equals the expectation, in which case both advance
together; otherwise only `idx` advances.  A token is `some ev` when
`processEvent` parses it (the event `ev` is then applied to the widget
tree, recorded in the returned list as `(sequence number, event)`), and
`none` when parsing fails (only a warning is logged).  The returned
`Nat` is the final `curEventIdx_`. -/
def handleEventsAux : Nat → Nat → List (Option Nat) → Nat × List (Nat × Nat)
  | _, cur, [] => (cur, [])
  | idx, cur, tok :: rest =>
    if idx = cur then
      let r := handleEventsAux (idx + 1) (idx + 1) rest
      match tok with
      | some ev => (r.1, (idx, ev) :: r.2)
      | none => r
    else
      handleEventsAux (idx + 1) cur rest

/-- Translation of `Session::handleEvents_(startIdx, begin, end)`: if
`startIdx` exceeds the expectation, events were lost and the
expectation jumps forward to `startIdx`; then the batch tokens are
scanned as in `handleEventsAux`. -/
def handleEvents (startIdx : Nat) (toks : List (Option Nat)) (cur : Nat) :
    Nat × List (Nat × Nat) :=
  handleEventsAux startIdx (if startIdx > cur then startIdx else cur) toks

/-- Iterated `handleEvents` over a list of `(startEventIdx, tokens)`
batches, threading `curEventIdx_` and concatenating the applied events;
this models the event batches of a sequence of accepted image polls. -/
def runBatches (cur : Nat) : List (Nat × List (Option Nat)) → Nat × List (Nat × Nat)
  | [] => (cur, [])
  | (st, toks) :: rest =>
    let r := handleEvents st toks cur
    let r2 := runBatches r.1 rest
    (r2.1, r.2 ++ r2.2)

/-- Fuel-indexed translation of the decrementing `while` loops of
`Session::sendViewportToCompressor_`: starting from `w`, decrement
until `w % m = r`. -/
def cropLoopAux : Nat → Nat → Nat → Nat → Nat
  | 0, w, _, _ => w
  | fuel + 1, w, m, r => if w % m = r then w else cropLoopAux fuel (w - 1) m r

/-- The largest value `≤ w` congruent to `r` modulo `m`, computed by the
decrementing loop of `sendViewportToCompressor_` (the loop runs at most
`w` times when a solution exists, so fuel `w + 1` is exact). -/
def cropToSignal (w m r : Nat) : Nat :=
  cropLoopAux (w + 1) w m r

/-- Translation of `Session::sendViewportToCompressor_`: the dimensions
of the subrectangle of the padded buffer handed to the compressor. -/
def sendViewportToCompressor (s : Session) : Nat × Nat :=
  (cropToSignal s.paddedW_ WidthSignalModulus s.widthSignal_,
   cropToSignal s.paddedH_ HeightSignalModulus s.heightSignal_)

/-- Translation of `Session::updateRootViewportSize_(width, height)`:
clamp the requested dimensions to `[64, 4096]` and, if the logical size
changed, reallocate the padded buffer of size
`(w + WidthSignalModulus - 1) × (h + HeightSignalModulus - 1)`. -/
def updateRootViewportSize (width height : Nat) (s : Session) : Session :=
  let w := max (min width 4096) 64
  let h := max (min height 4096) 64
  if s.rootViewportW_ ≠ w ∨ s.rootViewportH_ ≠ h then
    { s with
        paddedW_ := w + WidthSignalModulus - 1,
        paddedH_ := h + HeightSignalModulus - 1,
        rootViewportW_ := w,
        rootViewportH_ := h }
  else
    s

/-- The delivered frame dimensions after an accepted image poll
requesting `rw × rh`: viewport resize followed by the signalling crop. -/
def deliveredAfterPoll (rw rh : Nat) (s : Session) : Nat × Nat :=
  sendViewportToCompressor (updateRootViewportSize rw rh s)

/-- An inbound HTTP request, after the routing performed by the regex
table at the top of `session.cpp`; the numeric captures are the parsed
path components.  `invalid` stands for any path or method matching no
pattern (or whose captured integer fails to parse). -/
inductive Request where
  | image (mainIdx imgIdx : Nat) (immediate : Bool) (width height : Nat)
      (startEventIdx : Nat) (events : List (Option Nat))
  | iframe (mainIdx : Nat)
  | download (downloadIdx : Nat)
  | closeReq (mainIdx : Nat)
  | mainPage
  | prevPage
  | nextPage
  | invalid
deriving DecidableEq, Repr

/-- The response sent by `Session::handleHTTPRequest`. -/
inductive Response where
  | sessionClosed503
  | invalid400
  | outdated400
  | outdatedDownload400
  | okText
  | imageNow
  | imageWait
  | mainHTML (mainIdx : Nat)
  | preMainHTML
  | prevHTML
  | prePrevHTML
  | nextHTML
  | iframeHTML (a : IframeAction)
  | servedFile (f : Nat)
deriving DecidableEq, Repr

/-- Invocation of one queued iframe producer.  The download producer
(from `onDownloadCompleted`) registers the completed file in the ledger
under a freshly incremented `curDownloadIdx_` with a 10000 ms expiry
timer and serves the download iframe page. -/
def runIframeAction (now : Nat) (a : IframeAction) (s : Session) : Session × Response :=
  match a with
  | .popup _ => (s, .iframeHTML a)
  | .clipboard => (s, .iframeHTML a)
  | .download f =>
    let idx := s.curDownloadIdx_ + 1
    ({ s with
        curDownloadIdx_ := idx,
        downloads_ := ⟨idx, f, now + DownloadTTLMs⟩ :: s.downloads_ },
     .iframeHTML a)

/-- Translation of the image-endpoint branch of
`Session::handleHTTPRequest` (the code guarded by `imagePathRegex`). -/
def handleImageRequest (now : Nat) (mainIdx imgIdx : Nat) (immediate : Bool)
    (width height startEventIdx : Nat) (events : List (Option Nat))
    (s : Session) : Session × Response :=
  if mainIdx ≠ s.curMainIdx_ ∨ imgIdx ≤ s.curImgIdx_ then
    (s, .outdated400)
  else
    let s := updateInactivityTimeout now false s
    let s := { s with curEventIdx_ := (handleEvents startEventIdx events s.curEventIdx_).1 }
    let s := { s with curImgIdx_ := imgIdx }
    let s := updateRootViewportSize width height s
    (s, if immediate then .imageNow else .imageWait)

/-- Translation of the iframe-endpoint branch of
`Session::handleHTTPRequest`. -/
def handleIframeRequest (now : Nat) (mainIdx : Nat) (s : Session) : Session × Response :=
  if mainIdx ≠ s.curMainIdx_ then
    (s, .outdated400)
  else
    match s.iframeQueue_ with
    | [] => (s, .okText)
    | a :: rest =>
      let s := updateInactivityTimeout now false s
      let s := { s with iframeQueue_ := rest }
      let s := if rest.isEmpty then setWidthSignal WidthSignalNoNewIframe s else s
      runIframeAction now a s

/-- Translation of the download-endpoint branch of
`Session::handleHTTPRequest`: serve the ledger entry by index, or
reject an unknown (never issued or already expired) index. -/
def handleDownloadRequest (downloadIdx : Nat) (s : Session) : Session × Response :=
  match s.downloads_.find? (fun en => en.idx = downloadIdx) with
  | none => (s, .outdatedDownload400)
  | some en => (s, .servedFile en.file)

/-- Translation of the close-endpoint branch of
`Session::handleHTTPRequest`: on a matching `mainIdx`, invalidate the
current main generation and arm the shortened inactivity timer. -/
def handleCloseRequest (now : Nat) (mainIdx : Nat) (s : Session) : Session × Response :=
  if mainIdx ≠ s.curMainIdx_ then
    (s, .outdated400)
  else
    let s := { s with
        curMainIdx_ := s.curMainIdx_ + 1,
        curImgIdx_ := 0,
        curEventIdx_ := 0 }
    (updateInactivityTimeout now true s, .okText)

/-- Translation of the main-page branch of `Session::handleHTTPRequest`. -/
def handleMainRequest (now : Nat) (s : Session) : Session × Response :=
  let s := updateInactivityTimeout now false s
  if s.preMainVisited_ then
    let s := { s with curMainIdx_ := s.curMainIdx_ + 1 }
    let s := if 1 < s.curMainIdx_ ∧ ¬s.prevNextClicked_ then (navigate now 0 s).1 else s
    let s := { s with prevNextClicked_ := false, curImgIdx_ := 0, curEventIdx_ := 0 }
    (s, .mainHTML s.curMainIdx_)
  else
    ({ s with preMainVisited_ := true }, .preMainHTML)

/-- Translation of the prev-page branch of `Session::handleHTTPRequest`. -/
def handlePrevRequest (now : Nat) (s : Session) : Session × Response :=
  let s := updateInactivityTimeout now false s
  let s :=
    if 0 < s.curMainIdx_ ∧ ¬s.prevNextClicked_ then
      (navigate now (-1) { s with prevNextClicked_ := true }).1
    else s
  if s.prePrevVisited_ then
    (s, .prevHTML)
  else
    ({ s with prePrevVisited_ := true }, .prePrevHTML)

/-- Translation of the next-page branch of `Session::handleHTTPRequest`. -/
def handleNextRequest (now : Nat) (s : Session) : Session × Response :=
  let s := updateInactivityTimeout now false s
  let s :=
    if 0 < s.curMainIdx_ ∧ ¬s.prevNextClicked_ then
      (navigate now 1 { s with prevNextClicked_ := true }).1
    else s
  (s, .nextHTML)

/-- Translation of `Session::handleHTTPRequest`: requests to a Closing
or Closed session are answered 503; otherwise the security status is
refreshed if more than 1000 ms have elapsed (which touches only
`lastSecurityStatusUpdateTime_`), and the request is dispatched to the
branch matching its path. -/
def handleHTTPRequest (now : Nat) (req : Request) (s : Session) : Session × Response :=
  if s.state_ = .Closing ∨ s.state_ = .Closed then
    (s, .sessionClosed503)
  else
    let s :=
      if 1000 ≤ now - s.lastSecurityStatusUpdateTime_ then
        { s with lastSecurityStatusUpdateTime_ := now }
      else s
    match req with
    | .image m i imm w h se evs => handleImageRequest now m i imm w h se evs s
    | .iframe m => handleIframeRequest now m s
    | .download d => handleDownloadRequest d s
    | .closeReq m => handleCloseRequest now m s
    | .mainPage => handleMainRequest now s
    | .prevPage => handlePrevRequest now s
    | .nextPage => handleNextRequest now s
    | .invalid => (s, .invalid400)

/-- Translation of `Session::Client::OnAfterCreated`: requires Pending
(`REQUIRE`, modelled as `none` on violation), attaches the browser,
moves to Open, and, if a close was requested while Pending, immediately
calls `close()`.  The returned list records the states assigned to
`state_`, in order. -/
def onAfterCreated (s : Session) : Option (Session × List SessionState) :=
  if s.state_ = .Pending then
    let s1 := { s with state_ := .Open, hasBrowser_ := true }
    if s1.closeOnOpen_ then
      some (close s1, [.Open] ++ closeTrace s1)
    else
      some (s1, [.Open])
  else
    none

/-- Translation of `Session::Client::OnBeforeClose`: requires Open or
Closing, detaches the browser, moves to Closed, flushes the compressor
and re-runs the inactivity-timeout logic (which, in state Closed, just
disarms both timers). -/
def onBeforeClose (now : Nat) (s : Session) : Option (Session × List SessionState) :=
  if s.state_ = .Open ∨ s.state_ = .Closing then
    let s1 := { s with state_ := .Closed, hasBrowser_ := false }
    some (updateInactivityTimeout now false s1, [.Closed])
  else
    none

/-- An event delivered to the session on its owning loop: an HTTP
request, one of the browser-handle callbacks, a direct `close()` call,
the construction-failure path of `afterConstruct_`, the firing of the
armed inactivity timer, the enqueueing of an iframe producer, the
backspace navigation shortcut (`OnPreKeyEvent`), a cursor change, or
the firing of a download-entry expiry timer. -/
inductive SessionEvent where
  | http (req : Request)
  | browserReady
  | browserClosed
  | closeCall
  | constructFail
  | inactivityFire
  | addIframeEvt (a : IframeAction)
  | keyNavigate (direction : Int)
  | cursorChanged (c : Nat)
  | downloadExpire (idx : Nat)
deriving DecidableEq, Repr

/-- One step of the session under an event at time `now`.  The result
is `none` when the event is not deliverable in the current state (a
`REQUIRE` guard would fail, a timer is not due, or no such download
entry exists); otherwise it is the new session together with the list
of states assigned to `state_` during the step. -/
def sessionStep (now : Nat) (e : SessionEvent) (s : Session) :
    Option (Session × List SessionState) :=
  match e with
  | .http r => some ((handleHTTPRequest now r s).1, [])
  | .browserReady => onAfterCreated s
  | .browserClosed => onBeforeClose now s
  | .closeCall => some (close s, closeTrace s)
  | .constructFail =>
    if s.state_ = .Pending then some ({ s with state_ := .Closed }, [.Closed]) else none
  | .inactivityFire =>
    match s.timer_ with
    | some (_, deadline) =>
      if deadline = now then
        let s1 := { s with timer_ := none }
        if s1.state_ = .Pending ∨ s1.state_ = .Open then
          some (close s1, closeTrace s1)
        else
          some (s1, [])
      else none
    | none => none
  | .addIframeEvt a => some (addIframe a s, [])
  | .keyNavigate d => some ((navigate now d s).1, [])
  | .cursorChanged c =>
    if c < HeightSignalModulus then some (setHeightSignal c s, []) else none
  | .downloadExpire idx =>
    if s.downloads_.any (fun en => en.idx = idx ∧ en.expiry = now) then
      some ({ s with downloads_ := s.downloads_.filter (fun en => en.idx ≠ idx) }, [])
    else none

/-- The field values established by the `Session` constructor (before
`afterConstruct_` arms the inactivity timer), for a session created at
time `t0`. -/
def sessionCtor (t0 : Nat) : Session where
  state_ := .Pending
  closeOnOpen_ := false
  hasBrowser_ := false
  preMainVisited_ := false
  prePrevVisited_ := false
  prevNextClicked_ := false
  curMainIdx_ := 0
  curImgIdx_ := 0
  curEventIdx_ := 0
  curDownloadIdx_ := 0
  widthSignal_ := WidthSignalNoNewIframe
  heightSignal_ := NormalCursor
  rootViewportW_ := 800
  rootViewportH_ := 600
  paddedW_ := 800 + WidthSignalModulus - 1
  paddedH_ := 600 + HeightSignalModulus - 1
  iframeQueue_ := []
  downloads_ := []
  timer_ := none
  lastSecurityStatusUpdateTime_ := t0
  lastNavigateOperationTime_ := t0

/-- A freshly constructed session after `afterConstruct_` has armed the
long inactivity timer. -/
def initialSession (t0 : Nat) : Session :=
  updateInactivityTimeout t0 false (sessionCtor t0)

/-- The counter evolution actually performed by the code across one
operation: `curMainIdx_` and `curDownloadIdx_` never decrease, and
`curImgIdx_` and `curEventIdx_` never decrease except that they are
reset to zero by the operations that increment `curMainIdx_` (the close
endpoint and a revisit of the main page). -/
def CounterOk (s t : Session) : Prop :=
  s.curMainIdx_ ≤ t.curMainIdx_ ∧
  s.curDownloadIdx_ ≤ t.curDownloadIdx_ ∧
  (s.curImgIdx_ ≤ t.curImgIdx_ ∨ (t.curImgIdx_ = 0 ∧ s.curMainIdx_ < t.curMainIdx_)) ∧
  (s.curEventIdx_ ≤ t.curEventIdx_ ∨ (t.curEventIdx_ = 0 ∧ s.curMainIdx_ < t.curMainIdx_))

/-- The state-machine edges asserted by the specification (invariant 3:
transitions only along Pending→Open→Closing→Closed, or the single edge
Pending→Closed for construction failure). -/
def specStateEdgeB : SessionState → SessionState → Bool
  | .Pending, .Open => true
  | .Open, .Closing => true
  | .Closing, .Closed => true
  | .Pending, .Closed => true
  | _, _ => false

/-- The state-machine edges actually taken by the code: the edges of
the specification plus the direct edge Open→Closed, which
`OnBeforeClose` takes when the browser closes without a prior `close()`
call (its `REQUIRE` explicitly admits state Open). -/
def codeStateEdgeB : SessionState → SessionState → Bool
  | .Open, .Closed => true
  | a, b => specStateEdgeB a b

/-! ## Event sequencer: bounds and deduplication -/

theorem handleEventsAux_bounds :
    ∀ (toks : List (Option Nat)) (idx cur : Nat), idx ≤ cur →
      cur ≤ (handleEventsAux idx cur toks).1 ∧
      (∀ p ∈ (handleEventsAux idx cur toks).2,
        cur ≤ p.1 ∧ p.1 < (handleEventsAux idx cur toks).1) ∧
      List.Pairwise (fun p q : Nat × Nat => p.1 < q.1) (handleEventsAux idx cur toks).2
  | [], idx, cur, _ => by simp [handleEventsAux]
  | tok :: rest, idx, cur, h => by
    by_cases hic : idx = cur
    · subst hic
      have ih := handleEventsAux_bounds rest (idx + 1) (idx + 1) (le_refl _)
      cases tok with
      | some ev =>
        have hunf : handleEventsAux idx idx (some ev :: rest) =
            ((handleEventsAux (idx + 1) (idx + 1) rest).1,
             (idx, ev) :: (handleEventsAux (idx + 1) (idx + 1) rest).2) := by
          simp [handleEventsAux]
        rw [hunf]
        refine ⟨by have := ih.1; omega, ?_, ?_⟩
        · intro p hp
          rcases List.mem_cons.mp hp with hp | hp
          · subst hp; exact ⟨le_refl _, by have := ih.1; omega⟩
          · have := ih.2.1 p hp; exact ⟨by omega, by omega⟩
        · exact List.Pairwise.cons (fun q hq => by have := ih.2.1 q hq; omega) ih.2.2
      | none =>
        have hunf : handleEventsAux idx idx (none :: rest) =
            handleEventsAux (idx + 1) (idx + 1) rest := by
          simp [handleEventsAux]
        rw [hunf]
        refine ⟨by have := ih.1; omega, ?_, ih.2.2⟩
        intro p hp
        have := ih.2.1 p hp; exact ⟨by omega, by omega⟩
    · have hlt : idx < cur := lt_of_le_of_ne h hic
      have ih := handleEventsAux_bounds rest (idx + 1) cur hlt
      simp only [handleEventsAux, if_neg hic]
      exact ih

theorem handleEvents_bounds (startIdx : Nat) (toks : List (Option Nat)) (cur : Nat) :
    cur ≤ (handleEvents startIdx toks cur).1 ∧
    (∀ p ∈ (handleEvents startIdx toks cur).2,
      cur ≤ p.1 ∧ p.1 < (handleEvents startIdx toks cur).1) ∧
    List.Pairwise (fun p q : Nat × Nat => p.1 < q.1) (handleEvents startIdx toks cur).2 := by
  unfold handleEvents
  have h1 : startIdx ≤ (if startIdx > cur then startIdx else cur) := by split <;> omega
  have h2 : cur ≤ (if startIdx > cur then startIdx else cur) := by split <;> omega
  have hb := handleEventsAux_bounds toks startIdx _ h1
  exact ⟨le_trans h2 hb.1,
    fun p hp => ⟨le_trans h2 (hb.2.1 p hp).1, (hb.2.1 p hp).2⟩, hb.2.2⟩

theorem runBatches_bounds :
    ∀ (batches : List (Nat × List (Option Nat))) (cur : Nat),
      cur ≤ (runBatches cur batches).1 ∧
      (∀ p ∈ (runBatches cur batches).2,
        cur ≤ p.1 ∧ p.1 < (runBatches cur batches).1) ∧
      List.Pairwise (fun p q : Nat × Nat => p.1 < q.1) (runBatches cur batches).2
  | [], cur => by simp [runBatches]
  | (st, toks) :: rest, cur => by
    have h1 := handleEvents_bounds st toks cur
    have h2 := runBatches_bounds rest (handleEvents st toks cur).1
    simp only [runBatches]
    refine ⟨le_trans h1.1 h2.1, ?_, ?_⟩
    · intro p hp
      rcases List.mem_append.mp hp with hp | hp
      · exact ⟨(h1.2.1 p hp).1, lt_of_lt_of_le (h1.2.1 p hp).2 h2.1⟩
      · exact ⟨le_trans h1.1 (h2.2.1 p hp).1, (h2.2.1 p hp).2⟩
    · rw [List.pairwise_append]
      exact ⟨h1.2.2, h2.2.2,
        fun a ha b hb => lt_of_lt_of_le (h1.2.1 a ha).2 (h2.2.1 b hb).1⟩

/-- C2: across any sequence of event batches threaded through the
session's event expectation — including batches whose sequence ranges
overlap, as with client retries — the sequence numbers of the applied
events are strictly increasing, so each logical input event index is
applied to the widget tree at most once. -/
theorem session_events_applied_at_most_once
    (batches : List (Nat × List (Option Nat))) (cur0 n : Nat) :
    List.Pairwise (fun p q : Nat × Nat => p.1 < q.1) (runBatches cur0 batches).2 ∧
    ((runBatches cur0 batches).2.map Prod.fst).count n ≤ 1 := by
  have hp := (runBatches_bounds batches cur0).2.2
  refine ⟨hp, ?_⟩
  have hmap : List.Pairwise (· < ·) ((runBatches cur0 batches).2.map Prod.fst) :=
    List.pairwise_map.mpr hp
  have hnd : ((runBatches cur0 batches).2.map Prod.fst).Nodup :=
    hmap.imp Nat.ne_of_lt
  exact List.nodup_iff_count_le_one.mp hnd n

/-- C10: a token at the current expectation whose parse fails still
consumes its sequence number: processing `none :: rest` from
expectation `idx` is exactly processing `rest` from expectation
`idx + 1` (so the remaining tokens are handled at the correct sequence
numbers), no event is applied for sequence number `idx`, and on an
otherwise empty batch the expectation still advances by one. -/
theorem parse_failure_consumes_sequence_number (idx : Nat) (rest : List (Option Nat)) :
    handleEventsAux idx idx (Option.none :: rest) = handleEventsAux (idx + 1) (idx + 1) rest ∧
    ((handleEventsAux idx idx (Option.none :: rest)).2.map Prod.fst).count idx = 0 ∧
    (handleEventsAux idx idx [Option.none]).1 = idx + 1 := by
  have heq : handleEventsAux idx idx (Option.none :: rest) =
      handleEventsAux (idx + 1) (idx + 1) rest := by
    simp [handleEventsAux]
  refine ⟨heq, ?_, by simp [handleEventsAux]⟩
  rw [heq, List.count_eq_zero]
  intro hmem
  rcases List.mem_map.mp hmem with ⟨p, hp, hfst⟩
  have := (handleEventsAux_bounds rest (idx + 1) (idx + 1) (le_refl _)).2.1 p hp
  omega

/-! ## Image delivery: the signalling crop -/

theorem cropLoopAux_closed (m r : Nat) (hr : r < m) :
    ∀ (fuel w : Nat), (w - r) % m ≤ fuel → r ≤ w →
      cropLoopAux fuel w m r = w - (w - r) % m
  | 0, w, hfuel, _ => by
    have h0 : (w - r) % m = 0 := Nat.le_zero.mp hfuel
    simp [cropLoopAux, h0]
  | fuel + 1, w, hfuel, hrw => by
    have hm : 0 < m := by omega
    have hunf : cropLoopAux (fuel + 1) w m r =
        if w % m = r then w else cropLoopAux fuel (w - 1) m r := rfl
    by_cases hw : w % m = r
    · have hq : w - r = m * (w / m) := by
        have := Nat.div_add_mod w m
        omega
      have h0 : (w - r) % m = 0 := by rw [hq]; exact Nat.mul_mod_right _ _
      rw [hunf, if_pos hw, h0]
      omega
    · have hrw' : r < w := by
        rcases Nat.lt_or_ge r w with h | h
        · exact h
        · have hwr : w = r := by omega
          exact absurd (by rw [hwr]; exact Nat.mod_eq_of_lt hr) hw
      have hnz : (w - r) % m ≠ 0 := by
        intro h0
        rcases Nat.dvd_of_mod_eq_zero h0 with ⟨k, hk⟩
        have hwk : w = r + m * k := by omega
        exact hw (by rw [hwk, Nat.add_mul_mod_self_left, Nat.mod_eq_of_lt hr])
      have hmod : (w - r) % m < m := Nat.mod_lt _ hm
      have hdm := Nat.div_add_mod (w - r) m
      have hstep : (w - 1 - r) % m = (w - r) % m - 1 := by
        have h3 : w - 1 - r = m * ((w - r) / m) + ((w - r) % m - 1) := by omega
        rw [h3, Nat.mul_add_mod]
        exact Nat.mod_eq_of_lt (by omega)
      have hrec := cropLoopAux_closed m r hr fuel (w - 1) (by omega) (by omega)
      rw [hunf, if_neg hw, hrec]
      omega

theorem cropToSignal_closed (w m r : Nat) (hr : r < m) (hrw : r ≤ w) :
    cropToSignal w m r = w - (w - r) % m := by
  have hle : (w - r) % m ≤ w + 1 := le_trans (Nat.mod_le _ _) (by omega)
  exact cropLoopAux_closed m r hr (w + 1) w hle hrw

theorem cropToSignal_le (w m r : Nat) (hr : r < m) (hrw : r ≤ w) :
    cropToSignal w m r ≤ w := by
  rw [cropToSignal_closed w m r hr hrw]; omega

theorem cropToSignal_mod (w m r : Nat) (hr : r < m) (hrw : r ≤ w) :
    cropToSignal w m r % m = r := by
  rw [cropToSignal_closed w m r hr hrw]
  have hdm := Nat.div_add_mod (w - r) m
  have hc : w - (w - r) % m = r + m * ((w - r) / m) := by
    have := Nat.mod_le (w - r) m
    omega
  rw [hc, Nat.add_mul_mod_self_left, Nat.mod_eq_of_lt hr]

theorem cropToSignal_greatest (w m r v : Nat) (hr : r < m) (hrw : r ≤ w)
    (hv : v ≤ w) (hvm : v % m = r) : v ≤ cropToSignal w m r := by
  rw [cropToSignal_closed w m r hr hrw]
  have hm : 0 < m := by omega
  have hdv := Nat.div_add_mod v m
  have hdw := Nat.div_add_mod (w - r) m
  have hveq : v = m * (v / m) + r := by omega
  have h2 : v / m * m ≤ w - r := by
    have hcomm : v / m * m = m * (v / m) := Nat.mul_comm _ _
    omega
  have h3 : v / m ≤ (w - r) / m := (Nat.le_div_iff_mul_le hm).mpr h2
  have h5 : m * (v / m) ≤ m * ((w - r) / m) := Nat.mul_le_mul (le_refl m) h3
  omega

theorem updateRootViewportSize_spec (rw0 rh0 : Nat) (s : Session)
    (hpw : s.paddedW_ = s.rootViewportW_ + (WidthSignalModulus - 1))
    (hph : s.paddedH_ = s.rootViewportH_ + (HeightSignalModulus - 1)) :
    (updateRootViewportSize rw0 rh0 s).paddedW_
        = max (min rw0 4096) 64 + (WidthSignalModulus - 1) ∧
    (updateRootViewportSize rw0 rh0 s).paddedH_
        = max (min rh0 4096) 64 + (HeightSignalModulus - 1) ∧
    (updateRootViewportSize rw0 rh0 s).widthSignal_ = s.widthSignal_ ∧
    (updateRootViewportSize rw0 rh0 s).heightSignal_ = s.heightSignal_ := by
  simp only [updateRootViewportSize]
  split
  · exact ⟨rfl, rfl, rfl, rfl⟩
  · rename_i hcond
    push_neg at hcond
    exact ⟨by rw [hpw, hcond.1], by rw [hph, hcond.2], rfl, rfl⟩

/-- C3 (amended): for every accepted image poll, the frame handed to
the compressor has the largest width `≤ paddedW` congruent to the width
signal modulo `WidthSignalModulus` and the largest height `≤ paddedH`
congruent to the height signal modulo `HeightSignalModulus`, where the
padded buffer measures `(clamped width + Wmod - 1) × (clamped height +
Hmod - 1)` and the logical size is the requested size clamped to
`[64, 4096]`; with `Wmod = 4`, `Hmod = 8` and a requested viewport of
801×600 the delivered dimensions lie within `[800, 805) × [600, 608)`
(the code can deliver width 804, so the upper width bound claimed by
the spec, 804 exclusive, is off by one). -/
theorem frame_crop_dimensions (rw0 rh0 : Nat) (s : Session)
    (hws : s.widthSignal_ < WidthSignalModulus)
    (hhs : s.heightSignal_ < HeightSignalModulus)
    (hpw : s.paddedW_ = s.rootViewportW_ + (WidthSignalModulus - 1))
    (hph : s.paddedH_ = s.rootViewportH_ + (HeightSignalModulus - 1)) :
    (updateRootViewportSize rw0 rh0 s).paddedW_
        = max (min rw0 4096) 64 + (WidthSignalModulus - 1) ∧
    (updateRootViewportSize rw0 rh0 s).paddedH_
        = max (min rh0 4096) 64 + (HeightSignalModulus - 1) ∧
    (deliveredAfterPoll rw0 rh0 s).1 ≤ (updateRootViewportSize rw0 rh0 s).paddedW_ ∧
    (deliveredAfterPoll rw0 rh0 s).1 % WidthSignalModulus = s.widthSignal_ ∧
    (∀ v, v ≤ (updateRootViewportSize rw0 rh0 s).paddedW_ →
      v % WidthSignalModulus = s.widthSignal_ → v ≤ (deliveredAfterPoll rw0 rh0 s).1) ∧
    (deliveredAfterPoll rw0 rh0 s).2 ≤ (updateRootViewportSize rw0 rh0 s).paddedH_ ∧
    (deliveredAfterPoll rw0 rh0 s).2 % HeightSignalModulus = s.heightSignal_ ∧
    (∀ v, v ≤ (updateRootViewportSize rw0 rh0 s).paddedH_ →
      v % HeightSignalModulus = s.heightSignal_ → v ≤ (deliveredAfterPoll rw0 rh0 s).2) ∧
    (rw0 = 801 → rh0 = 600 →
      800 ≤ (deliveredAfterPoll rw0 rh0 s).1 ∧ (deliveredAfterPoll rw0 rh0 s).1 < 805 ∧
      600 ≤ (deliveredAfterPoll rw0 rh0 s).2 ∧ (deliveredAfterPoll rw0 rh0 s).2 < 608) := by
  obtain ⟨h1, h2, h3, h4⟩ := updateRootViewportSize_spec rw0 rh0 s hpw hph
  have hws4 : s.widthSignal_ < 4 := hws
  have hhs8 : s.heightSignal_ < 8 := hhs
  have hd1 : (deliveredAfterPoll rw0 rh0 s).1 =
      cropToSignal (updateRootViewportSize rw0 rh0 s).paddedW_ WidthSignalModulus
        s.widthSignal_ := by
    unfold deliveredAfterPoll sendViewportToCompressor
    rw [h3]
  have hd2 : (deliveredAfterPoll rw0 rh0 s).2 =
      cropToSignal (updateRootViewportSize rw0 rh0 s).paddedH_ HeightSignalModulus
        s.heightSignal_ := by
    unfold deliveredAfterPoll sendViewportToCompressor
    rw [h4]
  have hwge : 67 ≤ (updateRootViewportSize rw0 rh0 s).paddedW_ := by
    rw [h1]
    have : 64 ≤ max (min rw0 4096) 64 := le_max_right _ _
    have hmod3 : WidthSignalModulus - 1 = 3 := rfl
    omega
  have hhge : 71 ≤ (updateRootViewportSize rw0 rh0 s).paddedH_ := by
    rw [h2]
    have : 64 ≤ max (min rh0 4096) 64 := le_max_right _ _
    have hmod7 : HeightSignalModulus - 1 = 7 := rfl
    omega
  have hrw : s.widthSignal_ ≤ (updateRootViewportSize rw0 rh0 s).paddedW_ := by omega
  have hrh : s.heightSignal_ ≤ (updateRootViewportSize rw0 rh0 s).paddedH_ := by omega
  refine ⟨h1, h2, ?_, ?_, ?_, ?_, ?_, ?_, ?_⟩
  · rw [hd1]; exact cropToSignal_le _ _ _ hws hrw
  · rw [hd1]; exact cropToSignal_mod _ _ _ hws hrw
  · intro v hv hvm
    rw [hd1]; exact cropToSignal_greatest _ _ _ v hws hrw hv hvm
  · rw [hd2]; exact cropToSignal_le _ _ _ hhs hrh
  · rw [hd2]; exact cropToSignal_mod _ _ _ hhs hrh
  · intro v hv hvm
    rw [hd2]; exact cropToSignal_greatest _ _ _ v hhs hrh hv hvm
  · intro h801 h600
    subst h801; subst h600
    have hclw : max (min (801 : Nat) 4096) 64 = 801 := by decide
    have hclh : max (min (600 : Nat) 4096) 64 = 600 := by decide
    have hPW : (updateRootViewportSize 801 600 s).paddedW_ = 804 := by
      rw [h1, hclw]; decide
    have hPH : (updateRootViewportSize 801 600 s).paddedH_ = 607 := by
      rw [h2, hclh]; decide
    have hub : (deliveredAfterPoll 801 600 s).1 ≤ 804 := by
      rw [hd1, hPW]; exact cropToSignal_le _ _ _ hws (by omega)
    have hlb : 800 + s.widthSignal_ ≤ (deliveredAfterPoll 801 600 s).1 := by
      rw [hd1, hPW]
      exact cropToSignal_greatest _ _ _ (800 + s.widthSignal_) hws (by omega)
        (by omega) (by show (800 + s.widthSignal_) % 4 = s.widthSignal_; omega)
    have hub2 : (deliveredAfterPoll 801 600 s).2 ≤ 607 := by
      rw [hd2, hPH]; exact cropToSignal_le _ _ _ hhs (by omega)
    have hlb2 : 600 + s.heightSignal_ ≤ (deliveredAfterPoll 801 600 s).2 := by
      rw [hd2, hPH]
      exact cropToSignal_greatest _ _ _ (600 + s.heightSignal_) hhs (by omega)
        (by omega) (by show (600 + s.heightSignal_) % 8 = s.heightSignal_; omega)
    exact ⟨by omega, by omega, by omega, by omega⟩

/-- C3 witness: the amended crop bounds evaluated on a freshly
constructed session (800×600 viewport, both signals zero) for the
801×600 request of the spec's concrete scenario. -/
theorem frame_crop_dimensions_witness :
    800 ≤ (deliveredAfterPoll 801 600 (initialSession 0)).1 ∧
    (deliveredAfterPoll 801 600 (initialSession 0)).1 < 805 ∧
    600 ≤ (deliveredAfterPoll 801 600 (initialSession 0)).2 ∧
    (deliveredAfterPoll 801 600 (initialSession 0)).2 < 608 :=
  (frame_crop_dimensions 801 600 (initialSession 0) (by decide) (by decide)
    (by decide) (by decide)).2.2.2.2.2.2.2.2 rfl rfl

/-- C3 counterexample: with both signal moduli at their spec values and
the width signal at 0 (the no-iframe value, which is also the initial
value), the 801×600 request of the spec's concrete scenario yields a
delivered width of exactly 804, which violates the claimed bound
`width < 804` (interval `[800, 804)`). -/
theorem frame_801x600_width_escapes_claimed_range :
    deliveredAfterPoll 801 600 (initialSession 0) = (804, 600) ∧
    (initialSession 0).widthSignal_ = 0 ∧
    ¬ (deliveredAfterPoll 801 600 (initialSession 0)).1 < 804 := by
  refine ⟨by decide, by decide, by decide⟩

/-! ## Characterizations of the small state operations -/

@[simp] theorem updateInactivityTimeout_eq (now : Nat) (sh : Bool) (s : Session) :
    updateInactivityTimeout now sh s =
      { s with timer_ :=
          if s.state_ = .Pending ∨ s.state_ = .Open then
            some (sh, now + (if sh then ShortTimeoutMs else LongTimeoutMs))
          else none } := by
  simp only [updateInactivityTimeout]
  split <;> rfl

theorem navigate_fst_eq (now : Nat) (d : Int) (s : Session) :
    (navigate now d s).1 =
      if now - s.lastNavigateOperationTime_ ≤ 200 then s
      else { s with lastNavigateOperationTime_ := now } := by
  simp only [navigate]
  split <;> rfl

@[simp] theorem setWidthSignal_eq (v : Nat) (s : Session) :
    setWidthSignal v s = { s with widthSignal_ := v } := by
  unfold setWidthSignal
  split
  · rfl
  · rename_i hv
    rw [not_ne_iff] at hv
    rw [hv]

@[simp] theorem setHeightSignal_eq (v : Nat) (s : Session) :
    setHeightSignal v s = { s with heightSignal_ := v } := by
  unfold setHeightSignal
  split
  · rfl
  · rename_i hv
    rw [not_ne_iff] at hv
    rw [hv]

@[simp] theorem updateRootViewportSize_timer (w h : Nat) (s : Session) :
    (updateRootViewportSize w h s).timer_ = s.timer_ := by
  simp only [updateRootViewportSize]; split <;> rfl

@[simp] theorem updateRootViewportSize_state (w h : Nat) (s : Session) :
    (updateRootViewportSize w h s).state_ = s.state_ := by
  simp only [updateRootViewportSize]; split <;> rfl

@[simp] theorem updateRootViewportSize_curMainIdx (w h : Nat) (s : Session) :
    (updateRootViewportSize w h s).curMainIdx_ = s.curMainIdx_ := by
  simp only [updateRootViewportSize]; split <;> rfl

@[simp] theorem updateRootViewportSize_curImgIdx (w h : Nat) (s : Session) :
    (updateRootViewportSize w h s).curImgIdx_ = s.curImgIdx_ := by
  simp only [updateRootViewportSize]; split <;> rfl

@[simp] theorem updateRootViewportSize_curEventIdx (w h : Nat) (s : Session) :
    (updateRootViewportSize w h s).curEventIdx_ = s.curEventIdx_ := by
  simp only [updateRootViewportSize]; split <;> rfl

@[simp] theorem updateRootViewportSize_curDownloadIdx (w h : Nat) (s : Session) :
    (updateRootViewportSize w h s).curDownloadIdx_ = s.curDownloadIdx_ := by
  simp only [updateRootViewportSize]; split <;> rfl

@[simp] theorem updateRootViewportSize_downloads (w h : Nat) (s : Session) :
    (updateRootViewportSize w h s).downloads_ = s.downloads_ := by
  simp only [updateRootViewportSize]; split <;> rfl

@[simp] theorem runIframeAction_timer (now : Nat) (a : IframeAction) (s : Session) :
    (runIframeAction now a s).1.timer_ = s.timer_ := by
  cases a <;> rfl

@[simp] theorem runIframeAction_state (now : Nat) (a : IframeAction) (s : Session) :
    (runIframeAction now a s).1.state_ = s.state_ := by
  cases a <;> rfl

@[simp] theorem runIframeAction_curMainIdx (now : Nat) (a : IframeAction) (s : Session) :
    (runIframeAction now a s).1.curMainIdx_ = s.curMainIdx_ := by
  cases a <;> rfl

@[simp] theorem runIframeAction_curImgIdx (now : Nat) (a : IframeAction) (s : Session) :
    (runIframeAction now a s).1.curImgIdx_ = s.curImgIdx_ := by
  cases a <;> rfl

@[simp] theorem runIframeAction_curEventIdx (now : Nat) (a : IframeAction) (s : Session) :
    (runIframeAction now a s).1.curEventIdx_ = s.curEventIdx_ := by
  cases a <;> rfl

theorem runIframeAction_curDownloadIdx_le (now : Nat) (a : IframeAction) (s : Session) :
    s.curDownloadIdx_ ≤ (runIframeAction now a s).1.curDownloadIdx_ := by
  cases a <;> simp [runIframeAction]

theorem runIframeAction_downloads_mono (now : Nat) (a : IframeAction) (s : Session) :
    ∀ en ∈ s.downloads_, en ∈ (runIframeAction now a s).1.downloads_ := by
  cases a <;> simp_all [runIframeAction]

/-! ## C1: image-poll acceptance condition -/

/-- C1: an image-poll request is accepted exactly when its `mainIdx`
matches the session's current `mainIdx` and its `imgIdx` strictly
exceeds the last accepted `imgIdx`; every other image-poll request is
answered with the 400 Outdated-request rejection and leaves the whole
session state (counters, viewport, event expectation, timers) exactly
as it was. -/
theorem image_poll_accept_iff (now m i : Nat) (imm : Bool) (w h se : Nat)
    (evs : List (Option Nat)) (s : Session) :
    ((handleImageRequest now m i imm w h se evs s).2 ≠ Response.outdated400 ↔
      (m = s.curMainIdx_ ∧ s.curImgIdx_ < i)) ∧
    (¬ (m = s.curMainIdx_ ∧ s.curImgIdx_ < i) →
      handleImageRequest now m i imm w h se evs s = (s, Response.outdated400)) := by
  by_cases hacc : m = s.curMainIdx_ ∧ s.curImgIdx_ < i
  · have hcond : ¬ (m ≠ s.curMainIdx_ ∨ i ≤ s.curImgIdx_) := by
      push_neg
      exact ⟨hacc.1, hacc.2⟩
    have hresp : (handleImageRequest now m i imm w h se evs s).2 =
        if imm then Response.imageNow else Response.imageWait := by
      simp only [handleImageRequest, if_neg hcond]
    refine ⟨?_, fun hn => absurd hacc hn⟩
    rw [hresp]
    refine ⟨fun _ => hacc, fun _ => ?_⟩
    cases imm <;> simp
  · have hcond : m ≠ s.curMainIdx_ ∨ i ≤ s.curImgIdx_ := by
      by_contra hc
      push_neg at hc
      exact hacc ⟨hc.1, hc.2⟩
    have heq : handleImageRequest now m i imm w h se evs s = (s, Response.outdated400) := by
      simp only [handleImageRequest, if_pos hcond]
    refine ⟨?_, fun _ => heq⟩
    rw [heq]
    exact ⟨fun hfalse => absurd rfl hfalse, fun hx => absurd hx hacc⟩

/-- C1 witness: a stale image poll (wrong `mainIdx`) against a fresh
session is rejected without any state change. -/
theorem image_poll_accept_iff_witness :
    handleImageRequest 0 1 1 true 800 600 0 [] (initialSession 0) =
      (initialSession 0, Response.outdated400) :=
  (image_poll_accept_iff 0 1 1 true 800 600 0 [] (initialSession 0)).2 (by decide)

@[simp] theorem navigate_timer (now : Nat) (d : Int) (s : Session) :
    (navigate now d s).1.timer_ = s.timer_ := by
  rw [navigate_fst_eq]; split <;> rfl

@[simp] theorem navigate_state (now : Nat) (d : Int) (s : Session) :
    (navigate now d s).1.state_ = s.state_ := by
  rw [navigate_fst_eq]; split <;> rfl

@[simp] theorem navigate_curMainIdx (now : Nat) (d : Int) (s : Session) :
    (navigate now d s).1.curMainIdx_ = s.curMainIdx_ := by
  rw [navigate_fst_eq]; split <;> rfl

@[simp] theorem navigate_curImgIdx (now : Nat) (d : Int) (s : Session) :
    (navigate now d s).1.curImgIdx_ = s.curImgIdx_ := by
  rw [navigate_fst_eq]; split <;> rfl

@[simp] theorem navigate_curEventIdx (now : Nat) (d : Int) (s : Session) :
    (navigate now d s).1.curEventIdx_ = s.curEventIdx_ := by
  rw [navigate_fst_eq]; split <;> rfl

@[simp] theorem navigate_curDownloadIdx (now : Nat) (d : Int) (s : Session) :
    (navigate now d s).1.curDownloadIdx_ = s.curDownloadIdx_ := by
  rw [navigate_fst_eq]; split <;> rfl

@[simp] theorem navigate_downloads (now : Nat) (d : Int) (s : Session) :
    (navigate now d s).1.downloads_ = s.downloads_ := by
  rw [navigate_fst_eq]; split <;> rfl

/-! ## C6: inactivity-timer rearming per endpoint -/

theorem handleImageRequest_timer (now m i : Nat) (imm : Bool) (w h se : Nat)
    (evs : List (Option Nat)) (s : Session)
    (hlive : s.state_ = .Pending ∨ s.state_ = .Open)
    (hresp : (handleImageRequest now m i imm w h se evs s).2 ≠ Response.outdated400) :
    (handleImageRequest now m i imm w h se evs s).1.timer_ =
      some (false, now + LongTimeoutMs) := by
  by_cases hc : m ≠ s.curMainIdx_ ∨ i ≤ s.curImgIdx_
  · exact absurd (by simp only [handleImageRequest, if_pos hc]) hresp
  · simp only [handleImageRequest, if_neg hc]
    simp [hlive]

theorem handleIframeRequest_ok_id (now m : Nat) (s : Session)
    (hresp : (handleIframeRequest now m s).2 = Response.okText) :
    (handleIframeRequest now m s).1 = s := by
  unfold handleIframeRequest at hresp ⊢
  by_cases hc : m ≠ s.curMainIdx_
  · rw [if_pos hc] at hresp
    exact absurd hresp (by simp)
  · rw [if_neg hc] at hresp ⊢
    cases hq : s.iframeQueue_ with
    | nil => simp [hq]
    | cons a rest =>
      rw [hq] at hresp
      cases a <;> simp [runIframeAction] at hresp

theorem handleIframeRequest_pop_timer (now m : Nat) (s : Session)
    (hlive : s.state_ = .Pending ∨ s.state_ = .Open) (a : IframeAction)
    (hresp : (handleIframeRequest now m s).2 = Response.iframeHTML a) :
    (handleIframeRequest now m s).1.timer_ = some (false, now + LongTimeoutMs) := by
  unfold handleIframeRequest at hresp ⊢
  by_cases hc : m ≠ s.curMainIdx_
  · rw [if_pos hc] at hresp
    exact absurd hresp (by simp)
  · rw [if_neg hc] at hresp ⊢
    cases hq : s.iframeQueue_ with
    | nil =>
      rw [hq] at hresp
      exact absurd hresp (by simp)
    | cons b rest =>
      by_cases hre : rest.isEmpty <;> cases b <;> simp [hre, hlive]

theorem handleCloseRequest_timer (now m : Nat) (s : Session)
    (hlive : s.state_ = .Pending ∨ s.state_ = .Open)
    (hresp : (handleCloseRequest now m s).2 = Response.okText) :
    (handleCloseRequest now m s).1.timer_ = some (true, now + ShortTimeoutMs) := by
  unfold handleCloseRequest at hresp ⊢
  by_cases hc : m ≠ s.curMainIdx_
  · rw [if_pos hc] at hresp
    exact absurd hresp (by simp)
  · rw [if_neg hc]
    simp [hlive]

theorem handleMainRequest_timer (now : Nat) (s : Session)
    (hlive : s.state_ = .Pending ∨ s.state_ = .Open) :
    (handleMainRequest now s).1.timer_ = some (false, now + LongTimeoutMs) := by
  simp only [handleMainRequest]
  split_ifs <;> simp [hlive]

theorem handlePrevRequest_timer (now : Nat) (s : Session)
    (hlive : s.state_ = .Pending ∨ s.state_ = .Open) :
    (handlePrevRequest now s).1.timer_ = some (false, now + LongTimeoutMs) := by
  simp only [handlePrevRequest]
  split_ifs <;> simp [hlive]

theorem handleNextRequest_timer (now : Nat) (s : Session)
    (hlive : s.state_ = .Pending ∨ s.state_ = .Open) :
    (handleNextRequest now s).1.timer_ = some (false, now + LongTimeoutMs) := by
  simp only [handleNextRequest]
  split_ifs <;> simp [hlive]

theorem handleDownloadRequest_fst (d : Nat) (s : Session) :
    (handleDownloadRequest d s).1 = s := by
  unfold handleDownloadRequest
  cases s.downloads_.find? (fun en => en.idx = d) <;> rfl

theorem live_of_not_closed (s : Session)
    (hcl : ¬(s.state_ = SessionState.Closing ∨ s.state_ = SessionState.Closed)) :
    s.state_ = SessionState.Pending ∨ s.state_ = SessionState.Open := by
  cases h : s.state_ <;> simp_all

/-- C6 (amended): every accepted request on the image, main, prev and
next endpoints, and every iframe poll that serves a queued producer,
rearms the long inactivity timer; the accepted close-endpoint request
arms the shortened timer instead; and, departing from the claim, an
iframe poll answered OK on an empty queue and a download fetch leave
the timers (indeed for the former the whole session, and for the
latter everything reached by the dispatched handler) unchanged. -/
theorem timer_rearm_per_endpoint (now : Nat) (s : Session) :
    (∀ m i imm w h se evs,
      (handleHTTPRequest now (.image m i imm w h se evs) s).2 ≠ Response.outdated400 →
      (handleHTTPRequest now (.image m i imm w h se evs) s).2 ≠ Response.sessionClosed503 →
      (handleHTTPRequest now (.image m i imm w h se evs) s).1.timer_ =
        some (false, now + LongTimeoutMs)) ∧
    ((handleHTTPRequest now .mainPage s).2 ≠ Response.sessionClosed503 →
      (handleHTTPRequest now .mainPage s).1.timer_ = some (false, now + LongTimeoutMs)) ∧
    ((handleHTTPRequest now .prevPage s).2 ≠ Response.sessionClosed503 →
      (handleHTTPRequest now .prevPage s).1.timer_ = some (false, now + LongTimeoutMs)) ∧
    ((handleHTTPRequest now .nextPage s).2 ≠ Response.sessionClosed503 →
      (handleHTTPRequest now .nextPage s).1.timer_ = some (false, now + LongTimeoutMs)) ∧
    (∀ m, (handleHTTPRequest now (.closeReq m) s).2 = Response.okText →
      (handleHTTPRequest now (.closeReq m) s).1.timer_ = some (true, now + ShortTimeoutMs)) ∧
    (∀ m a, (handleHTTPRequest now (.iframe m) s).2 = Response.iframeHTML a →
      (handleHTTPRequest now (.iframe m) s).1.timer_ = some (false, now + LongTimeoutMs)) ∧
    (∀ m, (handleHTTPRequest now (.iframe m) s).2 = Response.okText →
      (handleHTTPRequest now (.iframe m) s).1.timer_ = s.timer_) ∧
    (∀ d, (handleHTTPRequest now (.download d) s).1.timer_ = s.timer_) := by
  by_cases hcl : s.state_ = SessionState.Closing ∨ s.state_ = SessionState.Closed
  · refine ⟨?_, ?_, ?_, ?_, ?_, ?_, ?_, ?_⟩ <;>
      simp only [handleHTTPRequest, if_pos hcl] <;> intros <;> simp_all
  · have hlive := live_of_not_closed s hcl
    by_cases hsec : 1000 ≤ now - s.lastSecurityStatusUpdateTime_
    · refine ⟨?_, ?_, ?_, ?_, ?_, ?_, ?_, ?_⟩ <;>
        simp only [handleHTTPRequest, if_neg hcl, if_pos hsec] <;> intros
      case pos.refine_1 m i imm w h se evs hr _ =>
        exact handleImageRequest_timer now m i imm w h se evs _ hlive hr
      case pos.refine_2 _ => exact handleMainRequest_timer now _ hlive
      case pos.refine_3 _ => exact handlePrevRequest_timer now _ hlive
      case pos.refine_4 _ => exact handleNextRequest_timer now _ hlive
      case pos.refine_5 m hr => exact handleCloseRequest_timer now m _ hlive hr
      case pos.refine_6 m a hr => exact handleIframeRequest_pop_timer now m _ hlive a hr
      case pos.refine_7 m hr => rw [handleIframeRequest_ok_id now m _ hr]
      case pos.refine_8 d => rw [handleDownloadRequest_fst]
    · refine ⟨?_, ?_, ?_, ?_, ?_, ?_, ?_, ?_⟩ <;>
        simp only [handleHTTPRequest, if_neg hcl, if_neg hsec] <;> intros
      case neg.refine_1 m i imm w h se evs hr _ =>
        exact handleImageRequest_timer now m i imm w h se evs _ hlive hr
      case neg.refine_2 _ => exact handleMainRequest_timer now _ hlive
      case neg.refine_3 _ => exact handlePrevRequest_timer now _ hlive
      case neg.refine_4 _ => exact handleNextRequest_timer now _ hlive
      case neg.refine_5 m hr => exact handleCloseRequest_timer now m _ hlive hr
      case neg.refine_6 m a hr => exact handleIframeRequest_pop_timer now m _ hlive a hr
      case neg.refine_7 m hr => rw [handleIframeRequest_ok_id now m _ hr]
      case neg.refine_8 d => rw [handleDownloadRequest_fst]

/-- C6 witness: a main-page request at time 5 on a fresh session rearms
the long (30000 ms) inactivity timer. -/
theorem timer_rearm_per_endpoint_witness :
    (handleHTTPRequest 5 Request.mainPage (initialSession 0)).1.timer_ =
      some (false, 30005) :=
  (timer_rearm_per_endpoint 5 (initialSession 0)).2.1 (by decide)

/-- C6 counterexample: after an accepted close-endpoint request armed
the shortened timer, an accepted iframe poll answered OK on the empty
queue does not rearm the long inactivity timer — the shortened timer
stays armed with its old deadline, contradicting the claim that every
accepted non-close request rearms the long timer. -/
theorem empty_iframe_poll_keeps_short_timer :
    (handleHTTPRequest 10 (Request.closeReq 0) (initialSession 0)).2 = Response.okText ∧
    (handleHTTPRequest 20 (Request.iframe 1)
      (handleHTTPRequest 10 (Request.closeReq 0) (initialSession 0)).1).2 =
        Response.okText ∧
    (handleHTTPRequest 20 (Request.iframe 1)
      (handleHTTPRequest 10 (Request.closeReq 0) (initialSession 0)).1).1.timer_ =
        some (true, 4010) ∧
    (handleHTTPRequest 20 (Request.iframe 1)
      (handleHTTPRequest 10 (Request.closeReq 0) (initialSession 0)).1).1.timer_ ≠
        some (false, 20 + LongTimeoutMs) := by
  refine ⟨by decide, by decide, by decide, by decide⟩

/-! ## C7: download ledger lifecycle -/

@[simp] theorem close_downloads (s : Session) : (close s).downloads_ = s.downloads_ := by
  unfold close; split_ifs <;> rfl

@[simp] theorem close_curMainIdx (s : Session) : (close s).curMainIdx_ = s.curMainIdx_ := by
  unfold close; split_ifs <;> rfl

@[simp] theorem close_curImgIdx (s : Session) : (close s).curImgIdx_ = s.curImgIdx_ := by
  unfold close; split_ifs <;> rfl

@[simp] theorem close_curEventIdx (s : Session) : (close s).curEventIdx_ = s.curEventIdx_ := by
  unfold close; split_ifs <;> rfl

@[simp] theorem close_curDownloadIdx (s : Session) :
    (close s).curDownloadIdx_ = s.curDownloadIdx_ := by
  unfold close; split_ifs <;> rfl

theorem handleImageRequest_downloads (now m i : Nat) (imm : Bool) (w h se : Nat)
    (evs : List (Option Nat)) (s : Session) :
    (handleImageRequest now m i imm w h se evs s).1.downloads_ = s.downloads_ := by
  unfold handleImageRequest; split <;> simp

theorem handleCloseRequest_downloads (now m : Nat) (s : Session) :
    (handleCloseRequest now m s).1.downloads_ = s.downloads_ := by
  unfold handleCloseRequest; split <;> simp

theorem handleMainRequest_downloads (now : Nat) (s : Session) :
    (handleMainRequest now s).1.downloads_ = s.downloads_ := by
  simp only [handleMainRequest]; split_ifs <;> simp

theorem handlePrevRequest_downloads (now : Nat) (s : Session) :
    (handlePrevRequest now s).1.downloads_ = s.downloads_ := by
  simp only [handlePrevRequest]; split_ifs <;> simp

theorem handleNextRequest_downloads (now : Nat) (s : Session) :
    (handleNextRequest now s).1.downloads_ = s.downloads_ := by
  simp only [handleNextRequest]; split_ifs <;> simp

theorem handleIframeRequest_downloads_mono (now m : Nat) (s : Session) (en : DownloadEntry)
    (hen : en ∈ s.downloads_) : en ∈ (handleIframeRequest now m s).1.downloads_ := by
  unfold handleIframeRequest
  split
  · exact hen
  · cases hq : s.iframeQueue_ with
    | nil => exact hen
    | cons a rest =>
      apply runIframeAction_downloads_mono
      split <;> simp [hen]

theorem handleHTTPRequest_downloads_mono (now : Nat) (req : Request) (s : Session)
    (en : DownloadEntry) (hen : en ∈ s.downloads_) :
    en ∈ (handleHTTPRequest now req s).1.downloads_ := by
  by_cases hcl : s.state_ = SessionState.Closing ∨ s.state_ = SessionState.Closed
  · simp only [handleHTTPRequest, if_pos hcl]; exact hen
  · by_cases hsec : 1000 ≤ now - s.lastSecurityStatusUpdateTime_ <;>
      [simp only [handleHTTPRequest, if_neg hcl, if_pos hsec];
       simp only [handleHTTPRequest, if_neg hcl, if_neg hsec]] <;>
      cases req
    all_goals
      first
        | (rw [handleImageRequest_downloads]; exact hen)
        | (exact handleIframeRequest_downloads_mono now _ _ en hen)
        | (rw [handleDownloadRequest_fst]; exact hen)
        | (rw [handleCloseRequest_downloads]; exact hen)
        | (rw [handleMainRequest_downloads]; exact hen)
        | (rw [handlePrevRequest_downloads]; exact hen)
        | (rw [handleNextRequest_downloads]; exact hen)
        | exact hen

/-- C7: the download ledger has a creation-time-fixed lifetime: the
download producer registers the file under a fresh index with expiry
exactly `creation time + DownloadTTLMs`; serving a download mutates
nothing (in particular it does not touch the expiry); a request for an
index with no ledger entry is answered with the 400 Outdated-download-
index rejection, and one with an entry serves the stored file; no
session event other than the expiry firing for that very index ever
removes or alters an entry; and the expiry firing (exactly at the
stored expiry time) unconditionally removes the entry. -/
theorem download_ledger_fixed_ttl :
    (∀ now f s, runIframeAction now (IframeAction.download f) s =
      ({ s with curDownloadIdx_ := s.curDownloadIdx_ + 1,
                downloads_ :=
                  ⟨s.curDownloadIdx_ + 1, f, now + DownloadTTLMs⟩ :: s.downloads_ },
       Response.iframeHTML (IframeAction.download f))) ∧
    (∀ d s, (handleDownloadRequest d s).1 = s) ∧
    (∀ d s, (∀ en ∈ s.downloads_, en.idx ≠ d) →
      (handleDownloadRequest d s).2 = Response.outdatedDownload400) ∧
    (∀ d s en, s.downloads_.find? (fun x => x.idx = d) = some en →
      (handleDownloadRequest d s).2 = Response.servedFile en.file) ∧
    (∀ now e s s1 tr, sessionStep now e s = some (s1, tr) →
      ∀ en ∈ s.downloads_, en ∈ s1.downloads_ ∨ e = SessionEvent.downloadExpire en.idx) ∧
    (∀ now idx s s1 tr,
      sessionStep now (SessionEvent.downloadExpire idx) s = some (s1, tr) →
      s1.downloads_ = s.downloads_.filter (fun en => en.idx ≠ idx) ∧
      s.downloads_.any (fun en => en.idx = idx ∧ en.expiry = now) = true) := by
  refine ⟨fun now f s => rfl, fun d s => handleDownloadRequest_fst d s, ?_, ?_, ?_, ?_⟩
  · intro d s hnone
    have hfind : s.downloads_.find? (fun x => x.idx = d) = none := by
      rw [List.find?_eq_none]
      intro x hx
      simp only [decide_eq_true_eq]
      exact hnone x hx
    unfold handleDownloadRequest
    rw [hfind]
  · intro d s en hfind
    unfold handleDownloadRequest
    rw [hfind]
  · intro now e s s1 tr hstep en hen
    cases e with
    | http r =>
      left
      simp only [sessionStep, Option.some.injEq, Prod.mk.injEq] at hstep
      rw [← hstep.1]
      exact handleHTTPRequest_downloads_mono now r s en hen
    | browserReady =>
      left
      simp only [sessionStep, onAfterCreated] at hstep
      split at hstep
      · split at hstep <;>
          · simp only [Option.some.injEq, Prod.mk.injEq] at hstep
            rw [← hstep.1]
            simpa using hen
      · exact absurd hstep (by simp)
    | browserClosed =>
      left
      simp only [sessionStep, onBeforeClose] at hstep
      split at hstep
      · simp only [Option.some.injEq, Prod.mk.injEq] at hstep
        rw [← hstep.1]
        simp [hen]
      · exact absurd hstep (by simp)
    | closeCall =>
      left
      simp only [sessionStep, Option.some.injEq, Prod.mk.injEq] at hstep
      rw [← hstep.1]
      simp [hen]
    | constructFail =>
      left
      simp only [sessionStep] at hstep
      split at hstep
      · simp only [Option.some.injEq, Prod.mk.injEq] at hstep
        rw [← hstep.1]
        exact hen
      · exact absurd hstep (by simp)
    | inactivityFire =>
      left
      simp only [sessionStep] at hstep
      split at hstep
      · split at hstep
        · split at hstep <;>
            · simp only [Option.some.injEq, Prod.mk.injEq] at hstep
              rw [← hstep.1]
              simp [hen]
        · exact absurd hstep (by simp)
      · exact absurd hstep (by simp)
    | addIframeEvt a =>
      left
      simp only [sessionStep, Option.some.injEq, Prod.mk.injEq] at hstep
      rw [← hstep.1]
      simp [addIframe, hen]
    | keyNavigate d =>
      left
      simp only [sessionStep, Option.some.injEq, Prod.mk.injEq] at hstep
      rw [← hstep.1]
      simp [hen]
    | cursorChanged c =>
      left
      simp only [sessionStep] at hstep
      split at hstep
      · simp only [Option.some.injEq, Prod.mk.injEq] at hstep
        rw [← hstep.1]
        simp [hen]
      · exact absurd hstep (by simp)
    | downloadExpire idx =>
      simp only [sessionStep] at hstep
      split at hstep
      · simp only [Option.some.injEq, Prod.mk.injEq] at hstep
        by_cases hidx : en.idx = idx
        · right; rw [hidx]
        · left
          rw [← hstep.1]
          simp only [List.mem_filter]
          exact ⟨hen, by simp [hidx]⟩
      · exact absurd hstep (by simp)
  · intro now idx s s1 tr hstep
    simp only [sessionStep] at hstep
    split at hstep
    · simp only [Option.some.injEq, Prod.mk.injEq] at hstep
      refine ⟨by rw [← hstep.1], by assumption⟩
    · exact absurd hstep (by simp)

/-- C7 witness: serving download index 1 (an entry expiring at time
10100) at time 200 leaves the entry in the ledger. -/
theorem download_ledger_fixed_ttl_witness :
    (⟨1, 7, 10100⟩ : DownloadEntry) ∈
        ({ initialSession 0 with downloads_ := [⟨1, 7, 10100⟩] } : Session).downloads_ ∨
      SessionEvent.http (Request.download 1) = SessionEvent.downloadExpire 1 :=
  download_ledger_fixed_ttl.2.2.2.2.1 200 (SessionEvent.http (Request.download 1))
    { initialSession 0 with downloads_ := [⟨1, 7, 10100⟩] }
    { initialSession 0 with downloads_ := [⟨1, 7, 10100⟩] } [] (by decide)
    ⟨1, 7, 10100⟩ (by decide)

/-! ## C4: state-machine edges -/

theorem handleImageRequest_state (now m i : Nat) (imm : Bool) (w h se : Nat)
    (evs : List (Option Nat)) (s : Session) :
    (handleImageRequest now m i imm w h se evs s).1.state_ = s.state_ := by
  unfold handleImageRequest; split <;> simp

theorem handleIframeRequest_state (now m : Nat) (s : Session) :
    (handleIframeRequest now m s).1.state_ = s.state_ := by
  unfold handleIframeRequest
  split
  · rfl
  · cases hq : s.iframeQueue_ with
    | nil => rfl
    | cons a rest =>
      split
      · rfl
      · split <;> simp

theorem handleCloseRequest_state (now m : Nat) (s : Session) :
    (handleCloseRequest now m s).1.state_ = s.state_ := by
  unfold handleCloseRequest; split <;> simp

theorem handleMainRequest_state (now : Nat) (s : Session) :
    (handleMainRequest now s).1.state_ = s.state_ := by
  simp only [handleMainRequest]; split_ifs <;> simp

theorem handlePrevRequest_state (now : Nat) (s : Session) :
    (handlePrevRequest now s).1.state_ = s.state_ := by
  simp only [handlePrevRequest]; split_ifs <;> simp

theorem handleNextRequest_state (now : Nat) (s : Session) :
    (handleNextRequest now s).1.state_ = s.state_ := by
  simp only [handleNextRequest]; split_ifs <;> simp

theorem handleHTTPRequest_state (now : Nat) (req : Request) (s : Session) :
    (handleHTTPRequest now req s).1.state_ = s.state_ := by
  by_cases hcl : s.state_ = SessionState.Closing ∨ s.state_ = SessionState.Closed
  · simp only [handleHTTPRequest, if_pos hcl]
  · by_cases hsec : 1000 ≤ now - s.lastSecurityStatusUpdateTime_ <;>
      [simp only [handleHTTPRequest, if_neg hcl, if_pos hsec];
       simp only [handleHTTPRequest, if_neg hcl, if_neg hsec]] <;>
      cases req
    all_goals
      first
        | rw [handleImageRequest_state]
        | rw [handleIframeRequest_state]
        | rw [handleDownloadRequest_fst]
        | rw [handleCloseRequest_state]
        | rw [handleMainRequest_state]
        | rw [handlePrevRequest_state]
        | rw [handleNextRequest_state]
        | rfl

theorem close_state_of_ne (s : Session) (h : s.state_ ≠ SessionState.Open) :
    (close s).state_ = s.state_ := by
  unfold close; split_ifs <;> simp_all

/-- C4 (amended): each individual assignment to `state_` performed by
an event travels an edge of the code's transition system: the chain
Pending→Open→Closing→Closed, the construction-failure edge
Pending→Closed, or — beyond the spec's claimed edge set — the direct
edge Open→Closed taken by the browser-closed callback when the browser
goes away without a prior `close()` call; moreover the recorded trace
ends at the resulting state, and events that assign nothing leave the
state unchanged. -/
theorem state_steps_follow_code_edges (now : Nat) (e : SessionEvent) (s s1 : Session)
    (tr : List SessionState) (hstep : sessionStep now e s = some (s1, tr)) :
    List.Chain (fun a b => codeStateEdgeB a b = true) s.state_ tr ∧
    s1.state_ = tr.getLastD s.state_ := by
  cases e with
  | http r =>
    simp only [sessionStep, Option.some.injEq, Prod.mk.injEq] at hstep
    obtain ⟨h1, h2⟩ := hstep
    rw [← h2, ← h1]
    exact ⟨List.Chain.nil, handleHTTPRequest_state now r s⟩
  | browserReady =>
    simp only [sessionStep, onAfterCreated] at hstep
    split at hstep
    · rename_i hpend
      split at hstep
      · simp only [Option.some.injEq, Prod.mk.injEq] at hstep
        obtain ⟨h1, h2⟩ := hstep
        rw [← h2, ← h1]
        simp only [closeTrace, close]
        rw [hpend]
        refine ⟨?_, by simp⟩
        simp [List.chain_cons, codeStateEdgeB, specStateEdgeB]
      · simp only [Option.some.injEq, Prod.mk.injEq] at hstep
        obtain ⟨h1, h2⟩ := hstep
        rw [← h2, ← h1]
        rw [hpend]
        refine ⟨?_, by simp⟩
        simp [List.chain_cons, codeStateEdgeB, specStateEdgeB]
    · exact absurd hstep (by simp)
  | browserClosed =>
    simp only [sessionStep, onBeforeClose] at hstep
    split at hstep
    · rename_i hoc
      simp only [Option.some.injEq, Prod.mk.injEq] at hstep
      obtain ⟨h1, h2⟩ := hstep
      rw [← h2, ← h1]
      refine ⟨?_, by simp⟩
      rcases hoc with hoc | hoc <;>
        · rw [hoc]
          simp [List.chain_cons, codeStateEdgeB, specStateEdgeB]
    · exact absurd hstep (by simp)
  | closeCall =>
    simp only [sessionStep, Option.some.injEq, Prod.mk.injEq] at hstep
    obtain ⟨h1, h2⟩ := hstep
    rw [← h2, ← h1]
    by_cases hopen : s.state_ = SessionState.Open
    · simp only [closeTrace, close, if_pos hopen]
      rw [hopen]
      refine ⟨?_, by simp⟩
      simp [List.chain_cons, codeStateEdgeB, specStateEdgeB]
    · simp only [closeTrace, if_neg hopen]
      exact ⟨List.Chain.nil, close_state_of_ne s hopen⟩
  | constructFail =>
    simp only [sessionStep] at hstep
    split at hstep
    · rename_i hpend
      simp only [Option.some.injEq, Prod.mk.injEq] at hstep
      obtain ⟨h1, h2⟩ := hstep
      rw [← h2, ← h1]
      rw [hpend]
      refine ⟨?_, by simp⟩
      simp [List.chain_cons, codeStateEdgeB, specStateEdgeB]
    · exact absurd hstep (by simp)
  | inactivityFire =>
    simp only [sessionStep] at hstep
    split at hstep
    · split at hstep
      · split at hstep
        · rename_i hlive
          simp only [Option.some.injEq, Prod.mk.injEq] at hstep
          obtain ⟨h1, h2⟩ := hstep
          rw [← h2, ← h1]
          by_cases hopen : s.state_ = SessionState.Open
          · simp only [closeTrace, close, if_pos hopen]
            rw [hopen]
            refine ⟨?_, by simp⟩
            simp [List.chain_cons, codeStateEdgeB, specStateEdgeB]
          · simp only [closeTrace, if_neg hopen]
            exact ⟨List.Chain.nil, close_state_of_ne _ hopen⟩
        · simp only [Option.some.injEq, Prod.mk.injEq] at hstep
          obtain ⟨h1, h2⟩ := hstep
          rw [← h2, ← h1]
          exact ⟨List.Chain.nil, rfl⟩
      · exact absurd hstep (by simp)
    · exact absurd hstep (by simp)
  | addIframeEvt a =>
    simp only [sessionStep, Option.some.injEq, Prod.mk.injEq] at hstep
    obtain ⟨h1, h2⟩ := hstep
    rw [← h2, ← h1]
    exact ⟨List.Chain.nil, by simp [addIframe]⟩
  | keyNavigate d =>
    simp only [sessionStep, Option.some.injEq, Prod.mk.injEq] at hstep
    obtain ⟨h1, h2⟩ := hstep
    rw [← h2, ← h1]
    exact ⟨List.Chain.nil, by simp⟩
  | cursorChanged c =>
    simp only [sessionStep] at hstep
    split at hstep
    · simp only [Option.some.injEq, Prod.mk.injEq] at hstep
      obtain ⟨h1, h2⟩ := hstep
      rw [← h2, ← h1]
      exact ⟨List.Chain.nil, by simp⟩
    · exact absurd hstep (by simp)
  | downloadExpire idx =>
    simp only [sessionStep] at hstep
    split at hstep
    · simp only [Option.some.injEq, Prod.mk.injEq] at hstep
      obtain ⟨h1, h2⟩ := hstep
      rw [← h2, ← h1]
      exact ⟨List.Chain.nil, rfl⟩
    · exact absurd hstep (by simp)

/-- C4 witness: the browser-ready callback on a fresh Pending session
takes the single edge Pending→Open, which is a code edge, and the
resulting state is the end of the recorded trace. -/
theorem state_steps_follow_code_edges_witness :
    List.Chain (fun a b => codeStateEdgeB a b = true) (initialSession 0).state_
        [SessionState.Open] ∧
    ({ initialSession 0 with
        state_ := SessionState.Open, hasBrowser_ := true } : Session).state_ =
      List.getLastD [SessionState.Open] (initialSession 0).state_ :=
  state_steps_follow_code_edges 0 SessionEvent.browserReady (initialSession 0)
    { initialSession 0 with state_ := SessionState.Open, hasBrowser_ := true }
    [SessionState.Open] (by decide)

/-- C4 counterexample: a session opened normally (Pending→Open) whose
browser then closes without any `close()` call steps directly from
Open to Closed — the browser-closed callback admits state Open — and
Open→Closed is not among the edges the claim allows. -/
theorem open_to_closed_edge_taken :
    (sessionStep 0 SessionEvent.browserReady (initialSession 0)).map
        (fun p => (p.1.state_, p.2)) = some (SessionState.Open, [SessionState.Open]) ∧
    ((sessionStep 0 SessionEvent.browserReady (initialSession 0)).bind
        (fun p => sessionStep 1 SessionEvent.browserClosed p.1)).map
        (fun p => (p.1.state_, p.2)) =
      some (SessionState.Closed, [SessionState.Closed]) ∧
    specStateEdgeB SessionState.Open SessionState.Closed = false :=
  ⟨by decide, by decide, rfl⟩

/-! ## C5: counter monotonicity -/

theorem counterOk_refl (s : Session) : CounterOk s s :=
  ⟨le_refl _, le_refl _, Or.inl (le_refl _), Or.inl (le_refl _)⟩

theorem counterOk_of_fields {s t : Session} (h1 : t.curMainIdx_ = s.curMainIdx_)
    (h2 : t.curDownloadIdx_ = s.curDownloadIdx_) (h3 : t.curImgIdx_ = s.curImgIdx_)
    (h4 : t.curEventIdx_ = s.curEventIdx_) : CounterOk s t := by
  unfold CounterOk
  rw [h1, h2, h3, h4]
  exact ⟨le_refl _, le_refl _, Or.inl (le_refl _), Or.inl (le_refl _)⟩

theorem counterOk_of_eq_trans {a b c : Session} (h1m : b.curMainIdx_ = a.curMainIdx_)
    (h1d : b.curDownloadIdx_ = a.curDownloadIdx_) (h1i : b.curImgIdx_ = a.curImgIdx_)
    (h1e : b.curEventIdx_ = a.curEventIdx_) (h2 : CounterOk b c) : CounterOk a c := by
  unfold CounterOk at h2 ⊢
  omega

theorem runIframeAction_counters (now : Nat) (a : IframeAction) (s : Session) :
    CounterOk s (runIframeAction now a s).1 := by
  cases a <;>
    exact ⟨by simp; try omega, by simp [runIframeAction]; try omega,
      Or.inl (by simp; try omega), Or.inl (by simp; try omega)⟩

theorem handleImageRequest_counters (now m i : Nat) (imm : Bool) (w h se : Nat)
    (evs : List (Option Nat)) (s : Session) :
    CounterOk s (handleImageRequest now m i imm w h se evs s).1 := by
  unfold handleImageRequest
  split
  · exact counterOk_refl s
  · rename_i hc
    push_neg at hc
    refine ⟨by simp, by simp, Or.inl ?_, Or.inl ?_⟩
    · simp
      omega
    · simp
      exact (handleEvents_bounds se evs s.curEventIdx_).1

theorem handleCloseRequest_counters (now m : Nat) (s : Session) :
    CounterOk s (handleCloseRequest now m s).1 := by
  unfold handleCloseRequest
  split
  · exact counterOk_refl s
  · exact ⟨by simp; try omega, by simp; try omega,
      Or.inr ⟨by simp, by simp; try omega⟩, Or.inr ⟨by simp, by simp; try omega⟩⟩

theorem handleMainRequest_counters (now : Nat) (s : Session) :
    CounterOk s (handleMainRequest now s).1 := by
  simp only [handleMainRequest]
  split_ifs
  · exact ⟨by simp, by simp, Or.inr ⟨by simp, by simp⟩, Or.inr ⟨by simp, by simp⟩⟩
  · exact ⟨by simp, by simp, Or.inr ⟨by simp, by simp⟩, Or.inr ⟨by simp, by simp⟩⟩
  · exact counterOk_of_fields (by simp) (by simp) (by simp) (by simp)

theorem handlePrevRequest_counters (now : Nat) (s : Session) :
    CounterOk s (handlePrevRequest now s).1 := by
  simp only [handlePrevRequest]
  split_ifs <;> exact counterOk_of_fields (by simp) (by simp) (by simp) (by simp)

theorem handleNextRequest_counters (now : Nat) (s : Session) :
    CounterOk s (handleNextRequest now s).1 := by
  simp only [handleNextRequest]
  split_ifs <;> exact counterOk_of_fields (by simp) (by simp) (by simp) (by simp)

theorem handleIframeRequest_counters (now m : Nat) (s : Session) :
    CounterOk s (handleIframeRequest now m s).1 := by
  unfold handleIframeRequest
  split
  · exact counterOk_refl s
  · cases hq : s.iframeQueue_ with
    | nil => exact counterOk_refl s
    | cons a rest =>
      split
      · exact counterOk_refl s
      · split <;>
          exact counterOk_of_eq_trans (by simp) (by simp) (by simp) (by simp)
            (runIframeAction_counters now _ _)

theorem handleHTTPRequest_counters (now : Nat) (req : Request) (s : Session) :
    CounterOk s (handleHTTPRequest now req s).1 := by
  by_cases hcl : s.state_ = SessionState.Closing ∨ s.state_ = SessionState.Closed
  · simp only [handleHTTPRequest, if_pos hcl]
    exact counterOk_refl s
  · by_cases hsec : 1000 ≤ now - s.lastSecurityStatusUpdateTime_ <;>
      cases req <;>
        [simp only [handleHTTPRequest, if_neg hcl, if_pos hsec];
         simp only [handleHTTPRequest, if_neg hcl, if_pos hsec];
         simp only [handleHTTPRequest, if_neg hcl, if_pos hsec];
         simp only [handleHTTPRequest, if_neg hcl, if_pos hsec];
         simp only [handleHTTPRequest, if_neg hcl, if_pos hsec];
         simp only [handleHTTPRequest, if_neg hcl, if_pos hsec];
         simp only [handleHTTPRequest, if_neg hcl, if_pos hsec];
         simp only [handleHTTPRequest, if_neg hcl, if_pos hsec];
         simp only [handleHTTPRequest, if_neg hcl, if_neg hsec];
         simp only [handleHTTPRequest, if_neg hcl, if_neg hsec];
         simp only [handleHTTPRequest, if_neg hcl, if_neg hsec];
         simp only [handleHTTPRequest, if_neg hcl, if_neg hsec];
         simp only [handleHTTPRequest, if_neg hcl, if_neg hsec];
         simp only [handleHTTPRequest, if_neg hcl, if_neg hsec];
         simp only [handleHTTPRequest, if_neg hcl, if_neg hsec];
         simp only [handleHTTPRequest, if_neg hcl, if_neg hsec]]
    all_goals
      first
        | exact handleImageRequest_counters now _ _ _ _ _ _ _ _
        | exact handleIframeRequest_counters now _ _
        | exact handleCloseRequest_counters now _ _
        | exact handleMainRequest_counters now _
        | exact handlePrevRequest_counters now _
        | exact handleNextRequest_counters now _
        | exact counterOk_of_eq_trans
            (b := { s with lastSecurityStatusUpdateTime_ := now }) rfl rfl rfl rfl
            (handleImageRequest_counters now _ _ _ _ _ _ _ _)
        | exact counterOk_of_eq_trans
            (b := { s with lastSecurityStatusUpdateTime_ := now }) rfl rfl rfl rfl
            (handleIframeRequest_counters now _ _)
        | exact counterOk_of_eq_trans
            (b := { s with lastSecurityStatusUpdateTime_ := now }) rfl rfl rfl rfl
            (handleCloseRequest_counters now _ _)
        | exact counterOk_of_eq_trans
            (b := { s with lastSecurityStatusUpdateTime_ := now }) rfl rfl rfl rfl
            (handleMainRequest_counters now _)
        | exact counterOk_of_eq_trans
            (b := { s with lastSecurityStatusUpdateTime_ := now }) rfl rfl rfl rfl
            (handlePrevRequest_counters now _)
        | exact counterOk_of_eq_trans
            (b := { s with lastSecurityStatusUpdateTime_ := now }) rfl rfl rfl rfl
            (handleNextRequest_counters now _)
        | (rw [handleDownloadRequest_fst]; exact counterOk_of_fields rfl rfl rfl rfl)
        | exact counterOk_of_fields rfl rfl rfl rfl

/-- C5 (amended): across every session event — request handlers and
handle callbacks alike — `curMainIdx_` and `curDownloadIdx_` never
decrease, and `curImgIdx_` and `curEventIdx_` never decrease except
that the operations that increment `curMainIdx_` (the close endpoint
and a main-page revisit) reset them to zero: the reset is always
accompanied by a strict increase of the generation counter. -/
theorem counters_monotone_modulo_generation_reset (now : Nat) (e : SessionEvent)
    (s s1 : Session) (tr : List SessionState)
    (hstep : sessionStep now e s = some (s1, tr)) : CounterOk s s1 := by
  cases e with
  | http r =>
    simp only [sessionStep, Option.some.injEq, Prod.mk.injEq] at hstep
    rw [← hstep.1]
    exact handleHTTPRequest_counters now r s
  | browserReady =>
    simp only [sessionStep, onAfterCreated] at hstep
    split at hstep
    · split at hstep <;>
        · simp only [Option.some.injEq, Prod.mk.injEq] at hstep
          rw [← hstep.1]
          exact counterOk_of_fields (by simp) (by simp) (by simp) (by simp)
    · exact absurd hstep (by simp)
  | browserClosed =>
    simp only [sessionStep, onBeforeClose] at hstep
    split at hstep
    · simp only [Option.some.injEq, Prod.mk.injEq] at hstep
      rw [← hstep.1]
      exact counterOk_of_fields (by simp) (by simp) (by simp) (by simp)
    · exact absurd hstep (by simp)
  | closeCall =>
    simp only [sessionStep, Option.some.injEq, Prod.mk.injEq] at hstep
    rw [← hstep.1]
    exact counterOk_of_fields (by simp) (by simp) (by simp) (by simp)
  | constructFail =>
    simp only [sessionStep] at hstep
    split at hstep
    · simp only [Option.some.injEq, Prod.mk.injEq] at hstep
      rw [← hstep.1]
      exact counterOk_of_fields (by simp) (by simp) (by simp) (by simp)
    · exact absurd hstep (by simp)
  | inactivityFire =>
    simp only [sessionStep] at hstep
    split at hstep
    · split at hstep
      · split at hstep <;>
          · simp only [Option.some.injEq, Prod.mk.injEq] at hstep
            rw [← hstep.1]
            exact counterOk_of_fields (by simp) (by simp) (by simp) (by simp)
      · exact absurd hstep (by simp)
    · exact absurd hstep (by simp)
  | addIframeEvt a =>
    simp only [sessionStep, Option.some.injEq, Prod.mk.injEq] at hstep
    rw [← hstep.1]
    exact counterOk_of_fields (by simp [addIframe]) (by simp [addIframe])
      (by simp [addIframe]) (by simp [addIframe])
  | keyNavigate d =>
    simp only [sessionStep, Option.some.injEq, Prod.mk.injEq] at hstep
    rw [← hstep.1]
    exact counterOk_of_fields (by simp) (by simp) (by simp) (by simp)
  | cursorChanged c =>
    simp only [sessionStep] at hstep
    split at hstep
    · simp only [Option.some.injEq, Prod.mk.injEq] at hstep
      rw [← hstep.1]
      exact counterOk_of_fields (by simp) (by simp) (by simp) (by simp)
    · exact absurd hstep (by simp)
  | downloadExpire idx =>
    simp only [sessionStep] at hstep
    split at hstep
    · simp only [Option.some.injEq, Prod.mk.injEq] at hstep
      rw [← hstep.1]
      exact counterOk_of_fields (by simp) (by simp) (by simp) (by simp)
    · exact absurd hstep (by simp)

/-- C5 witness: a navigation key event (which touches no counter)
satisfies the counter-evolution relation on a fresh session. -/
theorem counters_monotone_modulo_generation_reset_witness :
    CounterOk (initialSession 0) (initialSession 0) :=
  counters_monotone_modulo_generation_reset 0 (SessionEvent.keyNavigate 1)
    (initialSession 0) (initialSession 0) [] (by decide)

/-- C5 counterexample: an accepted image poll raises `curImgIdx_` to 5,
and then an accepted close-endpoint request assigns it 0 — a request
handler assigns `curImgIdx_` a value strictly smaller than its current
value, so the claim that the four counters are non-decreasing for the
lifetime of the session is false. -/
theorem img_idx_reset_on_close_endpoint :
    (handleHTTPRequest 1 (Request.image 0 5 true 800 600 0 [])
      (initialSession 0)).1.curImgIdx_ = 5 ∧
    (handleHTTPRequest 2 (Request.closeReq 0)
      (handleHTTPRequest 1 (Request.image 0 5 true 800 600 0 [])
        (initialSession 0)).1).1.curImgIdx_ = 0 ∧
    ¬ (5 : Nat) ≤ 0 :=
  ⟨by decide, by decide, by decide⟩

/-! ## C8: deferred close while Pending -/

/-- C8: a `close()` call while the session is Pending sets the
`closeOnOpen_` flag and changes nothing else; the subsequent
browser-ready callback then assigns Open and, because the flag is set,
immediately continues to Closing within the same callback — the
recorded state trace is `[Open, Closing]` and the resulting state is
Closing, never resting at Open. -/
theorem close_while_pending_defers (s : Session)
    (h : s.state_ = SessionState.Pending) :
    close s = { s with closeOnOpen_ := true } ∧
    onAfterCreated (close s) =
      some ({ s with closeOnOpen_ := true, state_ := SessionState.Closing, hasBrowser_ := true },
            [SessionState.Open, SessionState.Closing]) := by
  have hclose : close s = { s with closeOnOpen_ := true } := by
    unfold close
    rw [if_neg (by rw [h]; simp), if_pos h]
  refine ⟨hclose, ?_⟩
  rw [hclose]
  unfold onAfterCreated
  rw [if_pos (show ({ s with closeOnOpen_ := true } : Session).state_ =
    SessionState.Pending from h)]
  simp [close, closeTrace]

/-- C8 witness: the deferred-close behaviour evaluated on a fresh
Pending session. -/
theorem close_while_pending_defers_witness :
    close (initialSession 0) = { initialSession 0 with closeOnOpen_ := true } ∧
    onAfterCreated (close (initialSession 0)) =
      some ({ initialSession 0 with closeOnOpen_ := true, state_ := SessionState.Closing, hasBrowser_ := true },
            [SessionState.Open, SessionState.Closing]) :=
  close_while_pending_defers (initialSession 0) (by decide)

/-! ## C9: navigation debounce -/

/-- C9: a handle-level navigation command is suppressed when issued
within 200 ms of the previously issued one: after a first command is
issued at `t1`, a second trigger 50 ms later is dropped without any
state change, while a second trigger 300 ms later issues a second
command; in general any trigger at most 200 ms after the issued one is
dropped. -/
theorem navigate_debounce (s : Session) (d1 d2 d3 : Int) (t1 t2 : Nat)
    (hb : s.hasBrowser_ = true) (h1 : s.lastNavigateOperationTime_ + 200 < t1) :
    (navigate t1 d1 s).2 = some d1 ∧
    (navigate (t1 + 50) d2 (navigate t1 d1 s).1).2 = none ∧
    (navigate (t1 + 50) d2 (navigate t1 d1 s).1).1 = (navigate t1 d1 s).1 ∧
    (navigate (t1 + 300) d2 (navigate t1 d1 s).1).2 = some d2 ∧
    (t2 ≤ t1 + 200 → (navigate t2 d3 (navigate t1 d1 s).1).2 = none) := by
  have hfst : (navigate t1 d1 s).1 = { s with lastNavigateOperationTime_ := t1 } := by
    rw [navigate_fst_eq, if_neg (by omega)]
  have hsnd : (navigate t1 d1 s).2 = some d1 := by
    unfold navigate
    rw [if_neg (by omega)]
    simp [hb]
  refine ⟨hsnd, ?_, ?_, ?_, ?_⟩
  · rw [hfst]
    unfold navigate
    rw [if_pos (show t1 + 50 - t1 ≤ 200 by omega)]
  · rw [hfst]
    unfold navigate
    rw [if_pos (show t1 + 50 - t1 ≤ 200 by omega)]
  · rw [hfst]
    unfold navigate
    rw [if_neg (show ¬ t1 + 300 - t1 ≤ 200 by omega)]
    simp [hb]
  · intro ht2
    rw [hfst]
    unfold navigate
    rw [if_pos (show t2 - t1 ≤ 200 by omega)]

/-- C9 witness: on a session with a browser, triggers at times 500 and
550 issue exactly one command, and a trigger at 800 issues a second. -/
theorem navigate_debounce_witness :
    (navigate 500 (-1) { initialSession 0 with hasBrowser_ := true }).2 = some (-1) ∧
    (navigate (500 + 50) 0
      (navigate 500 (-1) { initialSession 0 with hasBrowser_ := true }).1).2 = none ∧
    (navigate (500 + 50) 0
      (navigate 500 (-1) { initialSession 0 with hasBrowser_ := true }).1).1 =
      (navigate 500 (-1) { initialSession 0 with hasBrowser_ := true }).1 ∧
    (navigate (500 + 300) 0
      (navigate 500 (-1) { initialSession 0 with hasBrowser_ := true }).1).2 = some 0 ∧
    (600 ≤ 500 + 200 →
      (navigate 600 1
        (navigate 500 (-1) { initialSession 0 with hasBrowser_ := true }).1).2 = none) :=
  navigate_debounce { initialSession 0 with hasBrowser_ := true } (-1) 0 1 500 600
    (by decide) (by decide)

end Browservice
